import Mathlib

/-!
Verification of the Aoide playlist-import pipeline.

This file is a shallow embedding, in Lean 4, of the Python modules
src/cache.py, src/constants.py, src/track.py, src/trackanalysis_api_client.py
and src/playlist.py, together with theorems settling the specified
properties of the pipeline.

Modelling conventions:
  - Python values that flow through the pipeline (JSON-like data) are
    modelled by the inductive type PyVal; Python None is PyVal.none.
  - A Python dict is an insertion-ordered association list with unique
    keys; dict update keeps the position of an existing key, as CPython
    does.
  - Python exceptions that escape a function are modelled with Except
    PyErr; exceptions that the source catches are handled inside the
    corresponding definition, as the source handles them.
  - The cache file on disk is part of the Cache state (field file);
    json.dump followed by json.load is the identity on these values.
    Each mutating operation takes a Bool argument telling whether the
    best-effort write to disk succeeds (the source swallows IOError).
  - Wall-clock time is modelled in integer milliseconds: time.sleep d
    advances the clock by exactly d and the HTTP round-trip itself is
    instantaneous.  The constants 1.0 s and 0.1 s of the source become
    1000 and 100.
-/

/-- A JSON-like Python runtime value. -/
inductive PyVal where
  | none
  | bool (b : Bool)
  | int (n : Int)
  | rat (q : Rat)
  | str (s : String)
  | list (xs : List PyVal)
  | dict (xs : List (String × PyVal))

/-- A Python exception kind that escapes a modelled function. -/
inductive PyErr where
  | attributeError
  | typeError
  | keyError
deriving DecidableEq, Repr

/-- Python truthiness (bool(v)) for the values of PyVal. -/
def pyTruthy : PyVal → Bool
  | .none => false
  | .bool b => b
  | .int n => n != 0
  | .rat q => q != 0
  | .str s => s ≠ ""
  | .list xs => !xs.isEmpty
  | .dict xs => !xs.isEmpty

/-- First-match lookup in an association list (Python dict access). -/
def alistGet (xs : List (String × PyVal)) (k : String) : Option PyVal :=
  match xs with
  | [] => Option.none
  | (k', v) :: rest => if k' = k then some v else alistGet rest k

/-- Python dict assignment d[k] = v: update in place if the key exists,
else append, keeping insertion order. -/
def alistSet (xs : List (String × PyVal)) (k : String) (v : PyVal) :
    List (String × PyVal) :=
  match xs with
  | [] => [(k, v)]
  | (k', v') :: rest =>
      if k' = k then (k, v) :: rest else (k', v') :: alistSet rest k v

/-- Python del d[k]: remove the first entry with the given key. -/
def alistDel (xs : List (String × PyVal)) (k : String) :
    List (String × PyVal) :=
  match xs with
  | [] => []
  | (k', v') :: rest =>
      if k' = k then rest else (k', v') :: alistDel rest k

/-- The Cache object of src/cache.py together with its durable file.
file is the parsed content of the cache file (Option.none when the file
is missing or corrupt), data the in-memory dict, and request_count and
cached_playlist the two convenience mirrors loaded at construction. -/
structure Cache where
  file : Option (List (String × PyVal))
  data : List (String × PyVal)
  request_count : PyVal
  cached_playlist : PyVal

/-- Cache.get: self.data.get(key, default). -/
def Cache.get (c : Cache) (k : String) (default : PyVal) : PyVal :=
  (alistGet c.data k).getD default

/-- Cache._save_cache: best-effort write of the whole dict to the file;
ok tells whether the write succeeds (IOError is swallowed). -/
def Cache.save (ok : Bool) (c : Cache) : Cache :=
  if ok then { c with file := some c.data } else c

/-- Cache.set: store the value under the key, then persist. -/
def Cache.set (ok : Bool) (c : Cache) (k : String) (v : PyVal) : Cache :=
  Cache.save ok { c with data := alistSet c.data k v }

/-- Cache.delete: remove the key and persist, only when the key exists. -/
def Cache.delete (ok : Bool) (c : Cache) (k : String) : Cache :=
  if (alistGet c.data k).isSome then
    Cache.save ok { c with data := alistDel c.data k }
  else c

/-- Cache.clear: drop all data and persist. -/
def Cache.clear (ok : Bool) (c : Cache) : Cache :=
  Cache.save ok { c with data := [] }

/-- Cache.has: key membership in the in-memory dict. -/
def Cache.has (c : Cache) (k : String) : Bool :=
  (alistGet c.data k).isSome

/-- Cache.__init__: load the file (missing or corrupt file gives the
empty dict) and read the two convenience mirrors with their defaults. -/
def Cache.init (file : Option (List (String × PyVal))) : Cache :=
  let data := file.getD []
  { file := file
    data := data
    request_count := (alistGet data "request count").getD (.int 0)
    cached_playlist := (alistGet data "cached playlist").getD (.list []) }

/-- Python v + 1 on a cache value; Option.none models the TypeError that
v += 1 raises on non-numeric values (bool is an int in Python). -/
def pyIncr : PyVal → Option PyVal
  | .int n => some (.int (n + 1))
  | .bool b => some (.int (cond b 2 1))
  | .rat q => some (.rat (q + 1))
  | _ => Option.none

/-- Cache.update_request_count: increment the mirror, then set it under
the reserved key; Option.none models an escaping TypeError. -/
def Cache.update_request_count (ok : Bool) (c : Cache) : Option Cache :=
  match pyIncr c.request_count with
  | Option.none => Option.none
  | some rc => some (Cache.set ok { c with request_count := rc } "request count" rc)

/-- Cache.update_playlist: replace the mirror, then set it under the
reserved key. -/
def Cache.update_playlist (ok : Bool) (c : Cache) (pl : PyVal) : Cache :=
  Cache.set ok { c with cached_playlist := pl } "cached playlist" pl

theorem alistGet_alistSet_self (xs : List (String × PyVal)) (k : String)
    (v : PyVal) : alistGet (alistSet xs k v) k = some v := by
  induction xs with
  | nil => simp [alistSet, alistGet]
  | cons hd tl ih =>
      obtain ⟨k', v'⟩ := hd
      by_cases h : k' = k
      · simp [alistSet, alistGet, h]
      · simp [alistSet, alistGet, h, ih]

theorem Cache.save_data (ok : Bool) (c : Cache) :
    (Cache.save ok c).data = c.data := by
  cases ok <;> rfl

theorem Cache.save_request_count (ok : Bool) (c : Cache) :
    (Cache.save ok c).request_count = c.request_count := by
  cases ok <;> rfl

theorem Cache.save_cached_playlist (ok : Bool) (c : Cache) :
    (Cache.save ok c).cached_playlist = c.cached_playlist := by
  cases ok <;> rfl

/-- Claim C10: Snapshot Store round-trip.  After set(k, v) a get(k)
returns v in the same process, and after the successful persist done by
set, a fresh Cache loaded from the durable file still returns v for k
(for every prior cache state, key, value and get defaults). -/
theorem C10_snapshot_roundtrip (c : Cache) (k : String) (v : PyVal)
    (d d' : PyVal) :
    Cache.get (Cache.set true c k v) k d = v ∧
    Cache.get (Cache.init (Cache.set true c k v).file) k d' = v := by
  constructor
  · simp [Cache.get, Cache.set, Cache.save, alistGet_alistSet_self]
  · simp [Cache.get, Cache.set, Cache.save, Cache.init,
      alistGet_alistSet_self]

/-- Claim C5, counterexample: the in-memory mirrors do not stay in sync
with the store across every mutating operation.  Start from an empty
cache, increment the request counter once, then delete the reserved key:
the request_count mirror still holds 1 while the stored value (with its
0 default) reads 0. -/
theorem C5_mirror_desync_counterexample :
    (Cache.delete true
        ((Cache.update_request_count true (Cache.init Option.none)).getD
          (Cache.init Option.none)) "request count").request_count =
      PyVal.int 1 ∧
    Cache.get
        (Cache.delete true
          ((Cache.update_request_count true (Cache.init Option.none)).getD
            (Cache.init Option.none)) "request count")
        "request count" (PyVal.int 0) = PyVal.int 0 ∧
    PyVal.int 1 ≠ PyVal.int 0 :=
  ⟨rfl, rfl, by simp⟩

/-- Claim C5, amended: only the two convenience updaters keep their
mirror in sync with the store.  After update_playlist the
cached_playlist mirror equals the value stored under the reserved key,
and after a non-raising update_request_count the request_count mirror
equals the value stored under its reserved key; the generic set, delete
and clear operations do not refresh the mirrors (see the
counterexample). -/
theorem C5_mirror_sync_amended :
    (∀ (ok : Bool) (c : Cache) (pl : PyVal),
        (Cache.update_playlist ok c pl).cached_playlist = pl ∧
        alistGet (Cache.update_playlist ok c pl).data "cached playlist" =
          some pl) ∧
    (∀ (ok : Bool) (c c' : Cache),
        Cache.update_request_count ok c = some c' →
        alistGet c'.data "request count" = some c'.request_count) := by
  constructor
  · intro ok c pl
    refine ⟨?_, ?_⟩
    · simp [Cache.update_playlist, Cache.set, Cache.save_cached_playlist]
    · simp [Cache.update_playlist, Cache.set, Cache.save_data,
        alistGet_alistSet_self]
  · intro ok c c' h
    unfold Cache.update_request_count at h
    cases hm : pyIncr c.request_count with
    | none => rw [hm] at h; exact absurd h (by simp)
    | some rc =>
        rw [hm] at h
        simp only [Option.some.injEq] at h
        subst h
        simp [Cache.set, Cache.save_data, Cache.save_request_count,
          alistGet_alistSet_self]

/-- Witness for C5_mirror_sync_amended at a concrete input: a fresh
cache incremented once stores 1 under the reserved key, matching its
mirror. -/
theorem C5_mirror_sync_amended_witness :
    alistGet (Cache.mk (some [("request count", PyVal.int 1)])
        [("request count", PyVal.int 1)] (PyVal.int 1)
        (PyVal.list [])).data "request count" =
      some (Cache.mk (some [("request count", PyVal.int 1)])
        [("request count", PyVal.int 1)] (PyVal.int 1)
        (PyVal.list [])).request_count :=
  C5_mirror_sync_amended.2 true (Cache.init Option.none)
    (Cache.mk (some [("request count", PyVal.int 1)])
      [("request count", PyVal.int 1)] (PyVal.int 1) (PyVal.list [])) rfl

/-- MODE_TO_NUMERIC of src/constants.py. -/
def MODE_TO_NUMERIC : List (String × Int) := [("major", 1), ("minor", 0)]

/-- CAMELOT_TO_NUMERIC of src/constants.py. -/
def CAMELOT_TO_NUMERIC : List (String × Int) :=
  [("1A", 1), ("1B", 2), ("2A", 3), ("2B", 4), ("3A", 5), ("3B", 6),
   ("4A", 7), ("4B", 8), ("5A", 9), ("5B", 10), ("6A", 11), ("6B", 12),
   ("7A", 13), ("7B", 14), ("8A", 15), ("8B", 16), ("9A", 17), ("9B", 18),
   ("10A", 19), ("10B", 20), ("11A", 21), ("11B", 22), ("12A", 23),
   ("12B", 24)]

/-- Python table.get(s, 0) for a string key on a str-keyed dict. -/
def tableGet (t : List (String × Int)) (s : String) : Int :=
  match t with
  | [] => 0
  | (k, v) :: rest => if s = k then v else tableGet rest s

/-- Python hashability of a PyVal: lists and dicts are unhashable. -/
def pyHashable : PyVal → Bool
  | .list _ => false
  | .dict _ => false
  | _ => true

/-- Python table.get(v, 0) on a str-keyed dict for a hashable runtime
key: a non-string key is simply absent, giving the default 0. -/
def tableGetHashed (t : List (String × Int)) (v : PyVal) : Int :=
  match v with
  | .str s => tableGet t s
  | _ => 0

/-- Python table.get(v, 0) for an arbitrary runtime key: an unhashable
key raises TypeError. -/
def tableGetPy (t : List (String × Int)) (v : PyVal) : Except PyErr Int :=
  if pyHashable v then Except.ok (tableGetHashed t v)
  else Except.error PyErr.typeError

/-- The spec name mode_to_numeric: lookup in MODE_TO_NUMERIC with
default 0, as done at the call site in Track.get_vector. -/
def mode_to_numeric (s : String) : Int := tableGet MODE_TO_NUMERIC s

/-- The spec name camelot_to_numeric: lookup in CAMELOT_TO_NUMERIC with
default 0, as done at the call site in Track.get_vector. -/
def camelot_to_numeric (s : String) : Int := tableGet CAMELOT_TO_NUMERIC s

theorem tableGet_eq_zero (t : List (String × Int)) (s : String)
    (h : s ∉ t.map Prod.fst) : tableGet t s = 0 := by
  induction t with
  | nil => rfl
  | cons hd tl ih =>
      obtain ⟨k, v⟩ := hd
      simp only [List.map_cons, List.mem_cons] at h
      push_neg at h
      simp [tableGet, h.1, ih h.2]

/-- The Track object of src/track.py.  All fields hold runtime values;
the constructor fills them from the data dict (or leaves the listed
defaults when the data is falsy). -/
structure Track where
  data : PyVal
  name : PyVal
  key : PyVal
  mode : PyVal
  camelot : PyVal
  loudness : PyVal
  tempo : PyVal
  energy : PyVal
  danceability : PyVal
  happiness : PyVal
  acousticness : PyVal
  liveness : PyVal
  speechiness : PyVal

/-- Track.__init__ followed by load_track: on falsy data the fields keep
their initial defaults; on truthy dict data every field is read with
data.get(key, default); on truthy non-dict data the first .get call
raises AttributeError (collapsed here into one match arm, since all
twelve .get calls would raise identically). -/
def Track.init (track_data : PyVal) : Except PyErr Track :=
  if pyTruthy track_data then
    match track_data with
    | .dict xs =>
        Except.ok
          { data := track_data
            name := (alistGet xs "name").getD (.str "Unknown Track")
            key := (alistGet xs "key").getD (.str "")
            mode := (alistGet xs "mode").getD (.str "")
            camelot := (alistGet xs "camelot").getD (.str "")
            loudness := (alistGet xs "loudness").getD (.str "")
            tempo := (alistGet xs "tempo").getD .none
            energy := (alistGet xs "energy").getD .none
            danceability := (alistGet xs "danceability").getD .none
            happiness := (alistGet xs "happiness").getD .none
            acousticness := (alistGet xs "acousticness").getD .none
            liveness := (alistGet xs "liveness").getD .none
            speechiness := (alistGet xs "speechiness").getD .none }
    | _ => Except.error PyErr.attributeError
  else
    Except.ok
      { data := track_data
        name := .str ""
        key := .str ""
        mode := .str ""
        camelot := .str ""
        loudness := .str ""
        tempo := .none
        energy := .none
        danceability := .none
        happiness := .none
        acousticness := .none
        liveness := .none
        speechiness := .none }

/-- Track.get_name. -/
def Track.get_name (t : Track) : PyVal := t.name

/-- Track.get_track. -/
def Track.get_track (t : Track) : PyVal := t.data

/-- Track.get_vector: numeric codes for mode and camelot, then the seven
continuous fields carried through raw. -/
def Track.get_vector (t : Track) : Except PyErr (List PyVal) := do
  let m ← tableGetPy MODE_TO_NUMERIC t.mode
  let c ← tableGetPy CAMELOT_TO_NUMERIC t.camelot
  Except.ok [PyVal.int m, PyVal.int c, t.tempo, t.energy, t.danceability,
    t.happiness, t.acousticness, t.liveness, t.speechiness]

/-- Claim C8: the categorical-to-numeric mappings are total.
mode_to_numeric sends "major" to 1, "minor" to 0 and every other string
to 0; camelot_to_numeric sends the 24 canonical wheel codes, enumerated
as 1A,1B,2A,2B,...,12A,12B, to the integers 1 through 24 respectively,
and every non-canonical string to 0. -/
theorem C8_categorical_mappings :
    mode_to_numeric "major" = 1 ∧
    mode_to_numeric "minor" = 0 ∧
    (∀ s : String, s ≠ "major" → s ≠ "minor" → mode_to_numeric s = 0) ∧
    (camelot_to_numeric "1A" = 1 ∧ camelot_to_numeric "1B" = 2 ∧
     camelot_to_numeric "2A" = 3 ∧ camelot_to_numeric "2B" = 4 ∧
     camelot_to_numeric "3A" = 5 ∧ camelot_to_numeric "3B" = 6 ∧
     camelot_to_numeric "4A" = 7 ∧ camelot_to_numeric "4B" = 8 ∧
     camelot_to_numeric "5A" = 9 ∧ camelot_to_numeric "5B" = 10 ∧
     camelot_to_numeric "6A" = 11 ∧ camelot_to_numeric "6B" = 12 ∧
     camelot_to_numeric "7A" = 13 ∧ camelot_to_numeric "7B" = 14 ∧
     camelot_to_numeric "8A" = 15 ∧ camelot_to_numeric "8B" = 16 ∧
     camelot_to_numeric "9A" = 17 ∧ camelot_to_numeric "9B" = 18 ∧
     camelot_to_numeric "10A" = 19 ∧ camelot_to_numeric "10B" = 20 ∧
     camelot_to_numeric "11A" = 21 ∧ camelot_to_numeric "11B" = 22 ∧
     camelot_to_numeric "12A" = 23 ∧ camelot_to_numeric "12B" = 24) ∧
    (∀ s : String,
      s ∉ ["1A", "1B", "2A", "2B", "3A", "3B", "4A", "4B", "5A", "5B",
           "6A", "6B", "7A", "7B", "8A", "8B", "9A", "9B", "10A", "10B",
           "11A", "11B", "12A", "12B"] →
      camelot_to_numeric s = 0) := by
  refine ⟨rfl, rfl, ?_, by decide, ?_⟩
  · intro s h1 h2
    apply tableGet_eq_zero
    simp only [ MODE_TO_NUMERIC, List.map_cons, List.map_nil]
    simp [h1, h2]
  · intro s hs
    apply tableGet_eq_zero
    simp only [ CAMELOT_TO_NUMERIC, List.map_cons, List.map_nil]
    exact hs

/-- Witness for C8_categorical_mappings: the empty string is not a mode
and "13A" is not a canonical wheel code; both map to 0. -/
theorem C8_categorical_mappings_witness :
    mode_to_numeric "" = 0 ∧ camelot_to_numeric "13A" = 0 :=
  ⟨C8_categorical_mappings.2.2.1 "" (by decide) (by decide),
   C8_categorical_mappings.2.2.2.2 "13A" (by decide)⟩

/-- Claim C4, counterexample: a Track built from the empty attribute
mapping (which is falsy, so load_track never runs) keeps the initial
name "", not the sentinel "Unknown Track". -/
theorem C4_empty_mapping_counterexample :
    (Track.init (PyVal.dict [])).map Track.get_name =
      Except.ok (PyVal.str "") ∧
    PyVal.str "" ≠ PyVal.str "Unknown Track" :=
  ⟨rfl, by simp⟩

/-- Claim C4, amended: for every Track built from a NON-EMPTY attribute
mapping that lacks a "name" key, get_name returns the sentinel
"Unknown Track"; for the empty mapping the constructor skips loading and
get_name returns the empty string (see the counterexample). -/
theorem C4_missing_name_sentinel (attrs : List (String × PyVal))
    (hne : attrs ≠ []) (hn : alistGet attrs "name" = Option.none) :
    (Track.init (PyVal.dict attrs)).map Track.get_name =
      Except.ok (PyVal.str "Unknown Track") := by
  cases attrs with
  | nil => exact absurd rfl hne
  | cons hd tl =>
      simp [Track.init, pyTruthy, Track.get_name, Except.map, hn]

/-- Witness for C4_missing_name_sentinel on the concrete mapping
with a single "key" entry and no "name" entry. -/
theorem C4_missing_name_sentinel_witness :
    (Track.init (PyVal.dict [("key", PyVal.str "C")])).map Track.get_name =
      Except.ok (PyVal.str "Unknown Track") :=
  C4_missing_name_sentinel [("key", PyVal.str "C")] (by simp) rfl

theorem Track.init_dict (attrs : List (String × PyVal)) :
    Track.init (PyVal.dict attrs) = Except.ok
      { data := PyVal.dict attrs
        name := if attrs.isEmpty then PyVal.str ""
          else (alistGet attrs "name").getD (.str "Unknown Track")
        key := (alistGet attrs "key").getD (.str "")
        mode := (alistGet attrs "mode").getD (.str "")
        camelot := (alistGet attrs "camelot").getD (.str "")
        loudness := (alistGet attrs "loudness").getD (.str "")
        tempo := (alistGet attrs "tempo").getD .none
        energy := (alistGet attrs "energy").getD .none
        danceability := (alistGet attrs "danceability").getD .none
        happiness := (alistGet attrs "happiness").getD .none
        acousticness := (alistGet attrs "acousticness").getD .none
        liveness := (alistGet attrs "liveness").getD .none
        speechiness := (alistGet attrs "speechiness").getD .none } := by
  cases attrs <;> rfl

theorem Track.get_vector_ok (t : Track) (hm : pyHashable t.mode = true)
    (hc : pyHashable t.camelot = true) :
    Track.get_vector t = Except.ok
      [PyVal.int (tableGetHashed MODE_TO_NUMERIC t.mode),
       PyVal.int (tableGetHashed CAMELOT_TO_NUMERIC t.camelot),
       t.tempo, t.energy, t.danceability, t.happiness, t.acousticness,
       t.liveness, t.speechiness] := by
  simp [Track.get_vector, tableGetPy, hm, hc, bind, Except.bind]

/-- Claim C7: for every Track built from an attribute mapping whose
"mode" and "camelot" entries are hashable (Python raises TypeError on an
unhashable dict key, which is the only way vector() can fail),
get_vector returns exactly the 9-element sequence
[mode_numeric, camelot_numeric, tempo, energy, danceability, happiness,
acousticness, liveness, speechiness] in that order, where each absent
continuous field appears as null at its slot (the getD default), never
omitted and never replaced by zero. -/
theorem C7_vector_fixed_shape (attrs : List (String × PyVal)) (t : Track)
    (ht : Track.init (PyVal.dict attrs) = Except.ok t)
    (hm : pyHashable ((alistGet attrs "mode").getD (PyVal.str "")) = true)
    (hc : pyHashable ((alistGet attrs "camelot").getD (PyVal.str "")) = true) :
    Track.get_vector t = Except.ok
      [PyVal.int (tableGetHashed MODE_TO_NUMERIC
          ((alistGet attrs "mode").getD (PyVal.str ""))),
       PyVal.int (tableGetHashed CAMELOT_TO_NUMERIC
          ((alistGet attrs "camelot").getD (PyVal.str ""))),
       (alistGet attrs "tempo").getD PyVal.none,
       (alistGet attrs "energy").getD PyVal.none,
       (alistGet attrs "danceability").getD PyVal.none,
       (alistGet attrs "happiness").getD PyVal.none,
       (alistGet attrs "acousticness").getD PyVal.none,
       (alistGet attrs "liveness").getD PyVal.none,
       (alistGet attrs "speechiness").getD PyVal.none] ∧
    (∀ l, Track.get_vector t = Except.ok l → l.length = 9) := by
  rw [Track.init_dict] at ht
  have ht' := Except.ok.inj ht
  subst ht'
  have hvec := Track.get_vector_ok
    { data := PyVal.dict attrs
      name := if attrs.isEmpty then PyVal.str ""
        else (alistGet attrs "name").getD (.str "Unknown Track")
      key := (alistGet attrs "key").getD (.str "")
      mode := (alistGet attrs "mode").getD (.str "")
      camelot := (alistGet attrs "camelot").getD (.str "")
      loudness := (alistGet attrs "loudness").getD (.str "")
      tempo := (alistGet attrs "tempo").getD .none
      energy := (alistGet attrs "energy").getD .none
      danceability := (alistGet attrs "danceability").getD .none
      happiness := (alistGet attrs "happiness").getD .none
      acousticness := (alistGet attrs "acousticness").getD .none
      liveness := (alistGet attrs "liveness").getD .none
      speechiness := (alistGet attrs "speechiness").getD .none } hm hc
  refine ⟨hvec, ?_⟩
  intro l hl
  rw [hvec] at hl
  cases Except.ok.inj hl
  rfl

/-- Witness for C7_vector_fixed_shape: a concrete mapping with name,
mode and tempo present and all other fields absent yields the 9-slot
vector [1, 0, 120, null, null, null, null, null, null]. -/
theorem C7_vector_fixed_shape_witness :
    Track.get_vector
      (Track.mk
        (PyVal.dict [("name", PyVal.str "A"), ("mode", PyVal.str "major"),
          ("tempo", PyVal.int 120)])
        (PyVal.str "A") (PyVal.str "") (PyVal.str "major") (PyVal.str "")
        (PyVal.str "") (PyVal.int 120) PyVal.none PyVal.none PyVal.none
        PyVal.none PyVal.none PyVal.none) =
      Except.ok
        [PyVal.int 1, PyVal.int 0, PyVal.int 120, PyVal.none, PyVal.none,
         PyVal.none, PyVal.none, PyVal.none, PyVal.none] :=
  (C7_vector_fixed_shape
    [("name", PyVal.str "A"), ("mode", PyVal.str "major"),
     ("tempo", PyVal.int 120)]
    (Track.mk
      (PyVal.dict [("name", PyVal.str "A"), ("mode", PyVal.str "major"),
        ("tempo", PyVal.int 120)])
      (PyVal.str "A") (PyVal.str "") (PyVal.str "major") (PyVal.str "")
      (PyVal.str "") (PyVal.int 120) PyVal.none PyVal.none PyVal.none
      PyVal.none PyVal.none PyVal.none)
    rfl rfl rfl).1

/-- One attempt of requests.get inside the retry loop of
TrackAnalysisApiClient.get: either a response with an HTTP status and,
for a 200, the parse result of response.json() (Option.none models a
ValueError), or a network failure raising RequestException. -/
inductive Attempt where
  | resp (status : Int) (body : Option PyVal)
  | netErr

/-- The mutable state of one TrackAnalysisApiClient together with the
wall clock, both in integer milliseconds. -/
structure ClientSt where
  now : Int
  last_request_time : Int
  cache : Cache

/-- Outcome of the while-True retry loop: a terminal (non-429) response,
or a RequestException; each carries the state and the list of the times
at which the outbound requests were issued. -/
inductive LoopEnd where
  | term (status : Int) (body : Option PyVal) (st : ClientSt)
      (times : List Int)
  | netRaise (st : ClientSt) (times : List Int)

/-- The final client state carried by a LoopEnd. -/
def LoopEnd.st : LoopEnd → ClientSt
  | .term _ _ st _ => st
  | .netRaise st _ => st

/-- The request issue times carried by a LoopEnd. -/
def LoopEnd.times : LoopEnd → List Int
  | .term _ _ _ ts => ts
  | .netRaise _ ts => ts

/-- The while-True loop of TrackAnalysisApiClient.get: issue a request
(recording its issue time), increment the persistent request counter via
the Cache, break on a non-429 status, else sleep 100 ms and retry.  The
trace lists the outcome of each successive attempt.  The outer
Option.none models a trace too short for the loop to exit (the loop has
no attempt bound); Except.error models an escaping TypeError from the
counter update.  A raising requests.get performs no counter update. -/
def clientLoop (ok : Bool) : ClientSt → List Attempt → List Int →
    Option (Except PyErr LoopEnd)
  | _, [], _ => Option.none
  | st, .netErr :: _, times =>
      some (.ok (.netRaise st (times ++ [st.now])))
  | st, .resp status body :: rest, times =>
      match Cache.update_request_count ok st.cache with
      | Option.none => some (.error .typeError)
      | some c' =>
          if status ≠ 429 then
            some (.ok (.term status body
              ⟨st.now, st.last_request_time, c'⟩ (times ++ [st.now])))
          else
            clientLoop ok ⟨st.now + 100, st.last_request_time, c'⟩ rest
              (times ++ [st.now])

/-- The value returned by TrackAnalysisApiClient.get together with the
issue times of its outbound requests and the final state. -/
structure GetResult where
  result : Option PyVal
  times : List Int
  st : ClientSt

/-- The rate-limit gate at the top of TrackAnalysisApiClient.get: if
less than 1000 ms elapsed since the last completed request, sleep for
the remainder. -/
def rateGate (st : ClientSt) : ClientSt :=
  if st.now - st.last_request_time < 1000 then
    { st with now := st.last_request_time + 1000 }
  else st

/-- TrackAnalysisApiClient.get: rate-limit gate, then the retry loop;
on a terminal response record the completion time as the new last
request timestamp, return the parsed body on a 200 (None on a
ValueError), None on any other status; on a RequestException record the
timestamp and return None. -/
def clientGet (ok : Bool) (st : ClientSt) (trace : List Attempt) :
    Option (Except PyErr GetResult) :=
  match clientLoop ok (rateGate st) trace [] with
  | Option.none => Option.none
  | some (.error e) => some (.error e)
  | some (.ok (.netRaise st2 times)) =>
      some (.ok ⟨Option.none, times,
        { st2 with last_request_time := st2.now }⟩)
  | some (.ok (.term status body st2 times)) =>
      if status = 200 then
        match body with
        | some v => some (.ok ⟨some v, times,
            { st2 with last_request_time := st2.now }⟩)
        | Option.none => some (.ok ⟨Option.none, times,
            { st2 with last_request_time := st2.now }⟩)
      else some (.ok ⟨Option.none, times,
        { st2 with last_request_time := st2.now }⟩)

/-- The number of attempts of a trace that yield a response before the
retry loop leaves (the attempts on which the source increments the
request counter). -/
def respCount : List Attempt → Nat
  | [] => 0
  | .netErr :: _ => 0
  | .resp s _ :: rest => if s ≠ 429 then 1 else 1 + respCount rest

theorem Cache.set_request_count (ok : Bool) (c : Cache) (k : String)
    (v : PyVal) : (Cache.set ok c k v).request_count = c.request_count := by
  simp [Cache.set, Cache.save_request_count]

theorem update_count_int (ok : Bool) (c : Cache) (k : Int)
    (hk : c.request_count = PyVal.int k) :
    Cache.update_request_count ok c =
      some (Cache.set ok { c with request_count := PyVal.int (k + 1) }
        "request count" (PyVal.int (k + 1))) ∧
    (Cache.set ok { c with request_count := PyVal.int (k + 1) }
        "request count" (PyVal.int (k + 1))).request_count =
      PyVal.int (k + 1) := by
  constructor
  · simp [Cache.update_request_count, hk, pyIncr]
  · simp [Cache.set_request_count]

theorem clientLoop_count (ok : Bool) (tr : List Attempt) :
    ∀ (st : ClientSt) (k : Int) (times : List Int) (e : LoopEnd),
      st.cache.request_count = PyVal.int k →
      clientLoop ok st tr times = some (Except.ok e) →
      e.st.cache.request_count = PyVal.int (k + (respCount tr : Int)) := by
  induction tr with
  | nil =>
      intro st k times e hk h
      exact absurd h (by simp [clientLoop])
  | cons a rest ih =>
      intro st k times e hk h
      cases a with
      | netErr =>
          simp only [clientLoop, Option.some.injEq, Except.ok.injEq] at h
          subst h
          simpa [LoopEnd.st, respCount] using hk
      | resp s b =>
          obtain ⟨h1, h2⟩ := update_count_int ok st.cache k hk
          rw [clientLoop, h1] at h
          dsimp only at h
          by_cases hs : s ≠ 429
          · rw [if_pos hs] at h
            simp only [Option.some.injEq, Except.ok.injEq] at h
            subst h
            simp only [LoopEnd.st, respCount, if_pos hs]
            rw [h2]
            norm_num
          · rw [if_neg hs] at h
            have h3 := ih _ (k + 1) _ e h2 h
            rw [h3]
            simp only [respCount, if_neg hs]
            congr 1
            push_cast
            ring

/-- Claim C2, counterexample: an attempt that ends in a network failure
does not increment the request counter.  A fresh client whose one
attempt raises a RequestException returns None and leaves the counter at
0, where the claim (counting every attempt regardless of outcome)
requires 1. -/
theorem C2_network_failure_counterexample :
    clientGet true ⟨5000, 0, Cache.init Option.none⟩ [Attempt.netErr] =
      some (Except.ok ⟨Option.none, [5000],
        ⟨5000, 5000, Cache.init Option.none⟩⟩) ∧
    (Cache.init Option.none).request_count = PyVal.int 0 ∧
    PyVal.int 0 ≠ PyVal.int 1 :=
  ⟨rfl, rfl, by simp⟩

/-- Claim C2, amended: each request attempt that receives a response
(success, throttle, or terminal error status) increments the persistent
request counter by exactly one, while an attempt aborted by a network
failure before a response does not; hence for every call the counter
grows by exactly the number of response-yielding attempts, a call that
is throttled twice and then succeeds increments it exactly 3 times, and
a call whose first attempt raises increments it 0 times. -/
theorem C2_request_count_amended :
    (∀ (ok : Bool) (st : ClientSt) (k : Int) (tr : List Attempt)
        (g : GetResult),
      st.cache.request_count = PyVal.int k →
      clientGet ok st tr = some (Except.ok g) →
      g.st.cache.request_count = PyVal.int (k + (respCount tr : Int))) ∧
    (∀ (b : Option PyVal) (v : PyVal),
      respCount (List.replicate 2 (Attempt.resp 429 b) ++
        [Attempt.resp 200 (some v)]) = 3) ∧
    (∀ tr : List Attempt, respCount (Attempt.netErr :: tr) = 0) := by
  refine ⟨?_, ?_, ?_⟩
  · intro ok st k tr g hk h
    unfold clientGet at h
    have hk1 : (rateGate st).cache.request_count = PyVal.int k := by
      unfold rateGate; split <;> exact hk
    cases hloop : clientLoop ok (rateGate st) tr [] with
    | none => rw [hloop] at h; exact absurd h (by simp)
    | some r =>
        rw [hloop] at h
        cases r with
        | error e => simp at h
        | ok e =>
            have hc := clientLoop_count ok tr (rateGate st) k [] e hk1 hloop
            cases e with
            | netRaise st2 times =>
                simp only [Option.some.injEq, Except.ok.injEq] at h
                subst h
                simpa [LoopEnd.st] using hc
            | term s b st2 times =>
                dsimp only at h
                split at h
                · split at h <;>
                    (simp only [Option.some.injEq, Except.ok.injEq] at h;
                     subst h; simpa [LoopEnd.st] using hc)
                · simp only [Option.some.injEq, Except.ok.injEq] at h
                  subst h
                  simpa [LoopEnd.st] using hc
  · intro b v
    simp [respCount, List.replicate]
  · intro tr
    rfl

/-- Witness for C2_request_count_amended: a fresh client throttled twice
and then given a 200 ends with the counter at 3 = 0 + 3. -/
theorem C2_request_count_amended_witness :
    (GetResult.mk (some (PyVal.dict [])) [5000, 5100, 5200]
      (ClientSt.mk 5200 5200
        (Cache.mk (some [("request count", PyVal.int 3)])
          [("request count", PyVal.int 3)] (PyVal.int 3)
          (PyVal.list [])))).st.cache.request_count =
      PyVal.int (0 + ((respCount (List.replicate 2
        (Attempt.resp 429 Option.none) ++
        [Attempt.resp 200 (some (PyVal.dict []))]) : Nat) : Int)) :=
  C2_request_count_amended.1 true ⟨5000, 0, Cache.init Option.none⟩ 0
    (List.replicate 2 (Attempt.resp 429 Option.none) ++
      [Attempt.resp 200 (some (PyVal.dict []))])
    (GetResult.mk (some (PyVal.dict [])) [5000, 5100, 5200]
      (ClientSt.mk 5200 5200
        (Cache.mk (some [("request count", PyVal.int 3)])
          [("request count", PyVal.int 3)] (PyVal.int 3)
          (PyVal.list []))))
    rfl rfl

theorem clientLoop_times (ok : Bool) (tr : List Attempt) :
    ∀ (st : ClientSt) (times : List Int) (e : LoopEnd),
      clientLoop ok st tr times = some (Except.ok e) →
      ∃ new : List Int,
        e.times = times ++ new ∧
        new.head? = some st.now ∧
        List.Chain' (fun a b => b = a + 100) new ∧
        e.st.now = new.getLastD st.now ∧
        e.st.last_request_time = st.last_request_time := by
  induction tr with
  | nil =>
      intro st times e h
      exact absurd h (by simp [clientLoop])
  | cons a rest ih =>
      intro st times e h
      cases a with
      | netErr =>
          simp only [clientLoop, Option.some.injEq, Except.ok.injEq] at h
          subst h
          exact ⟨[st.now], rfl, rfl, by simp, by simp [LoopEnd.st], rfl⟩
      | resp s b =>
          cases hu : Cache.update_request_count ok st.cache with
          | none =>
              rw [clientLoop, hu] at h
              simp at h
          | some c' =>
              rw [clientLoop, hu] at h
              dsimp only at h
              by_cases hs : s ≠ 429
              · rw [if_pos hs] at h
                simp only [Option.some.injEq, Except.ok.injEq] at h
                subst h
                exact ⟨[st.now], rfl, rfl, by simp, by simp [LoopEnd.st], rfl⟩
              · rw [if_neg hs] at h
                obtain ⟨new, h1, h2, h3, h4, h5⟩ := ih _ _ e h
                cases new with
                | nil => simp at h2
                | cons x xs =>
                    dsimp only at h2 h4 h5
                    simp only [List.head?_cons, Option.some.injEq] at h2
                    subst h2
                    refine ⟨st.now :: (st.now + 100) :: xs, ?_, rfl, ?_, ?_, h5⟩
                    · rw [h1]; simp
                    · rw [List.chain'_cons]
                      exact ⟨rfl, h3⟩
                    · simpa [List.getLastD_cons] using h4

theorem clientGet_times (ok : Bool) (st : ClientSt) (tr : List Attempt)
    (g : GetResult) (h : clientGet ok st tr = some (Except.ok g)) :
    g.times.head? = some (rateGate st).now ∧
    List.Chain' (fun a b => b = a + 100) g.times ∧
    g.st.last_request_time = g.times.getLastD (rateGate st).now := by
  unfold clientGet at h
  cases hloop : clientLoop ok (rateGate st) tr [] with
  | none => rw [hloop] at h; exact absurd h (by simp)
  | some r =>
      rw [hloop] at h
      cases r with
      | error e => simp at h
      | ok e =>
          obtain ⟨new, h1, h2, h3, h4, h5⟩ :=
            clientLoop_times ok tr (rateGate st) [] e hloop
          rw [List.nil_append] at h1
          cases e with
          | netRaise st2 times =>
              simp only [Option.some.injEq, Except.ok.injEq] at h
              subst h
              dsimp only [LoopEnd.times, LoopEnd.st] at h1 h4
              subst h1
              exact ⟨h2, h3, h4⟩
          | term s b st2 times =>
              dsimp only at h
              dsimp only [LoopEnd.times, LoopEnd.st] at h1 h4
              subst h1
              split at h
              · split at h <;>
                  (simp only [Option.some.injEq, Except.ok.injEq] at h;
                   subst h; exact ⟨h2, h3, h4⟩)
              · simp only [Option.some.injEq, Except.ok.injEq] at h
                subst h
                exact ⟨h2, h3, h4⟩

/-- Claim C3, counterexample: the 1-second floor does not hold between
the requests re-issued inside the throttle-retry loop.  A fresh client
throttled once issues its two outbound requests at 5000 ms and 5100 ms:
only 100 ms apart, less than the 1000 ms floor the claim requires. -/
theorem C3_retry_gap_counterexample :
    clientGet true ⟨5000, 0, Cache.init Option.none⟩
      [Attempt.resp 429 Option.none,
       Attempt.resp 200 (some (PyVal.dict []))] =
      some (Except.ok ⟨some (PyVal.dict []), [5000, 5100],
        ⟨5100, 5100,
          Cache.mk (some [("request count", PyVal.int 2)])
            [("request count", PyVal.int 2)] (PyVal.int 2)
            (PyVal.list [])⟩⟩) ∧
    ((5100 : Int) - 5000 < 1000) :=
  ⟨rfl, by decide⟩

/-- Claim C3, amended: the 1-second floor holds between get() calls but
not inside the throttle-retry loop.  For every call through one client,
the first outbound request is issued no earlier than 1000 ms after the
recorded completion of the previous request (so across two consecutive
calls on the same instance, at least 1000 ms separates the last request
of the first call from the first request of the second); requests
re-issued inside the throttle-retry loop, however, are spaced exactly
100 ms apart in this clock model. -/
theorem C3_rate_limit_amended :
    (∀ (ok : Bool) (st : ClientSt) (tr : List Attempt) (g : GetResult)
        (t : Int),
      clientGet ok st tr = some (Except.ok g) →
      g.times.head? = some t →
      st.last_request_time + 1000 ≤ t) ∧
    (∀ (ok : Bool) (st : ClientSt) (tr : List Attempt) (g : GetResult),
      clientGet ok st tr = some (Except.ok g) →
      List.Chain' (fun a b => b = a + 100) g.times) ∧
    (∀ (ok ok2 : Bool) (st : ClientSt) (tr1 tr2 : List Attempt)
        (g1 g2 : GetResult) (a b : Int),
      clientGet ok st tr1 = some (Except.ok g1) →
      clientGet ok2 g1.st tr2 = some (Except.ok g2) →
      g1.times.getLast? = some a →
      g2.times.head? = some b →
      a + 1000 ≤ b) := by
  have gate_ge : ∀ st : ClientSt,
      st.last_request_time + 1000 ≤ (rateGate st).now := by
    intro st
    unfold rateGate
    split <;> [simp; omega]
  have gate_last : ∀ st : ClientSt,
      (rateGate st).last_request_time = st.last_request_time := by
    intro st
    unfold rateGate
    split <;> rfl
  have head_ge : ∀ (ok : Bool) (st : ClientSt) (tr : List Attempt)
      (g : GetResult) (t : Int),
      clientGet ok st tr = some (Except.ok g) →
      g.times.head? = some t →
      st.last_request_time + 1000 ≤ t := by
    intro ok st tr g t h ht
    obtain ⟨h1, _, _⟩ := clientGet_times ok st tr g h
    rw [ht] at h1
    cases h1
    exact gate_ge st
  refine ⟨head_ge, ?_, ?_⟩
  · intro ok st tr g h
    exact (clientGet_times ok st tr g h).2.1
  · intro ok ok2 st tr1 tr2 g1 g2 a b h1 h2 hl hh
    have hb := head_ge ok2 g1.st tr2 g2 b h2 hh
    obtain ⟨hh1, _, hlast⟩ := clientGet_times ok st tr1 g1 h1
    have hne : g1.times ≠ [] := by
      intro hnil
      rw [hnil] at hh1
      exact absurd hh1 (by simp)
    rw [List.getLastD_eq_getLast?, hl] at hlast
    simp only [Option.getD_some] at hlast
    omega

/-- Witness for C3_rate_limit_amended: two consecutive calls on a fresh
client, each answered 200 at once, issue their single requests at
1000 ms and 2000 ms, 1000 ms apart. -/
theorem C3_rate_limit_amended_witness :
    clientGet true ⟨0, 0, Cache.init Option.none⟩
      [Attempt.resp 200 (some PyVal.none)] =
      some (Except.ok ⟨some PyVal.none, [1000],
        ⟨1000, 1000,
          Cache.mk (some [("request count", PyVal.int 1)])
            [("request count", PyVal.int 1)] (PyVal.int 1)
            (PyVal.list [])⟩⟩) ∧
    (1000 : Int) + 1000 ≤ 2000 :=
  ⟨rfl,
    C3_rate_limit_amended.2.2 true true ⟨0, 0, Cache.init Option.none⟩
      [Attempt.resp 200 (some PyVal.none)]
      [Attempt.resp 200 (some PyVal.none)]
      ⟨some PyVal.none, [1000],
        ⟨1000, 1000,
          Cache.mk (some [("request count", PyVal.int 1)])
            [("request count", PyVal.int 1)] (PyVal.int 1)
            (PyVal.list [])⟩⟩
      ⟨some PyVal.none, [2000],
        ⟨2000, 2000,
          Cache.mk (some [("request count", PyVal.int 2)])
            [("request count", PyVal.int 2)] (PyVal.int 2)
            (PyVal.list [])⟩⟩
      1000 2000 rfl rfl rfl rfl⟩

/-- Structural model of Python str.split(sep) for a one-character
separator: splits on every occurrence, keeping empty segments, never
returning an empty list. -/
def splitOnChar (sep : Char) : List Char → List (List Char)
  | [] => [[]]
  | c :: rest =>
      match splitOnChar sep rest with
      | [] => if c = sep then [[], []] else [[c]]
      | h :: t => if c = sep then [] :: h :: t else (c :: h) :: t

/-- Whether the first list is a leading segment of the second. -/
def leadsList (needle hay : List Char) : Bool :=
  match needle, hay with
  | [], _ => true
  | _ :: _, [] => false
  | a :: as, b :: bs => a == b && leadsList as bs

/-- Structural model of the Python substring test needle in hay. -/
def containsSub (needle hay : List Char) : Bool :=
  match hay with
  | [] => needle.isEmpty
  | _ :: rest => leadsList needle hay || containsSub needle rest

/-- Python membership k in v for a string k: key membership for a dict,
elementwise equality for a list, substring test for a str, TypeError
otherwise. -/
def pyContains (v : PyVal) (k : String) : Except PyErr Bool :=
  match v with
  | .dict xs => .ok (alistGet xs k).isSome
  | .list xs => .ok (xs.any (fun x => match x with
      | .str s => s == k
      | _ => false))
  | .str s => .ok (containsSub k.toList s.toList)
  | _ => .error .typeError

/-- Python v[k] for a string key: dict lookup (KeyError when the key is
absent), TypeError on every non-dict value. -/
def pyIndex (v : PyVal) (k : String) : Except PyErr PyVal :=
  match v with
  | .dict xs =>
      match alistGet xs k with
      | some x => .ok x
      | Option.none => .error .keyError
  | _ => .error .typeError

/-- Python iteration over a value: list elements, str characters, dict
keys in order; TypeError otherwise. -/
def pyIter : PyVal → Except PyErr (List PyVal)
  | .list xs => .ok xs
  | .str s => .ok (s.toList.map (fun ch => .str (String.mk [ch])))
  | .dict xs => .ok (xs.map (fun p => .str p.1))
  | _ => .error .typeError

/-- The item loop of Playlist.get_track_refs: append
item["track"]["href"] whenever both keys are present. -/
def extractRefs : List PyVal → Except PyErr (List PyVal)
  | [] => .ok []
  | item :: rest => do
      let h1 ← pyContains item "track"
      if h1 then
        let t ← pyIndex item "track"
        let h2 ← pyContains t "href"
        if h2 then
          let r ← pyIndex t "href"
          let tail ← extractRefs rest
          .ok (r :: tail)
        else extractRefs rest
      else extractRefs rest

/-- Playlist.get_track_refs: defensively walk
data["tracks"]["items"]; any missing level yields the empty list. -/
def get_track_refs (data : PyVal) : Except PyErr (List PyVal) := do
  if pyTruthy data then
    let h1 ← pyContains data "tracks"
    if h1 then
      let tracks ← pyIndex data "tracks"
      let h2 ← pyContains tracks "items"
      if h2 then
        let items ← pyIndex tracks "items"
        let l ← pyIter items
        extractRefs l
      else .ok []
    else .ok []
  else .ok []

/-- The track-id derivation in Playlist.get_track_data:
ref.split(slash)[-1] when ref is truthy (AttributeError when a truthy
ref is not a string, since only str has split), else the empty
string. -/
def trackIdOf (ref : PyVal) : Except PyErr String :=
  if pyTruthy ref then
    match ref with
    | .str s => .ok ((splitOnChar '/' s.toList).getLastD []).asString
    | _ => .error .attributeError
  else .ok ""

/-- Playlist.get_track_data: one Enrichment Client call per reference,
in input order.  The enrichment collaborator is abstracted as the
function enrich from track id to attributes-or-None, matching the
external interface fetchAnalysis(trackId); its request counting and
rate limiting are modelled separately by clientGet. -/
def get_track_data (enrich : String → PyVal) :
    List PyVal → Except PyErr (List PyVal)
  | [] => .ok []
  | ref :: rest => do
      let tid ← trackIdOf ref
      let tail ← get_track_data enrich rest
      .ok (enrich tid :: tail)

/-- The Track class has no attribute get_data (its accessor is named
get_track), so the call track.get_data() in Playlist.build_playlist
raises AttributeError for every Track instance. -/
def Track.get_data (_ : Track) : Except PyErr PyVal :=
  .error .attributeError

/-- The first loop of Playlist.build_playlist (also used by from_cache):
construct a Track per entry that is not None, preserving order. -/
def buildTracks : List PyVal → Except PyErr (List Track)
  | [] => .ok []
  | PyVal.none :: rest => buildTracks rest
  | d :: rest => do
      let t ← Track.init d
      let ts ← buildTracks rest
      .ok (t :: ts)

/-- The second loop of Playlist.build_playlist: collect
track.get_data() for every constructed track. -/
def collectData : List Track → Except PyErr (List PyVal)
  | [] => .ok []
  | t :: rest => do
      let d ← t.get_data
      let ds ← collectData rest
      .ok (d :: ds)

/-- Playlist.build_playlist: build Tracks from the enrichment results
(skipping None), collect each track.get_data(), and persist the
collection as the cached playlist. -/
def build_playlist (ok : Bool) (track_data : List PyVal) (c : Cache) :
    Except PyErr (List Track × Cache) := do
  let tracks ← buildTracks track_data
  let cache_data ← collectData tracks
  .ok (tracks, Cache.update_playlist ok c (PyVal.list cache_data))

/-- The per-track vector loop of Playlist.__init__ and from_cache. -/
def vectorsOf : List Track → Except PyErr (List (List PyVal))
  | [] => .ok []
  | t :: rest => do
      let v ← t.get_vector
      let vs ← vectorsOf rest
      .ok (v :: vs)

/-- The Playlist object state the claims are about: the Track sequence
and its two derived parallel sequences. -/
structure PlaylistObj where
  playlist : List Track
  vectors : List (List PyVal)
  song_list : List PyVal

/-- Playlist.__init__ given the payload returned by the Spotify
collaborator: load_playlist, get_track_refs, get_track_data,
build_playlist, then the vector and name loops. -/
def playlistInit (ok : Bool) (payload : PyVal) (enrich : String → PyVal)
    (c : Cache) : Except PyErr (PlaylistObj × Cache) := do
  let refs ← get_track_refs payload
  let track_data ← get_track_data enrich refs
  let (tracks, c') ← build_playlist ok track_data c
  let vectors ← vectorsOf tracks
  .ok (⟨tracks, vectors, tracks.map Track.get_name⟩, c')

/-- Playlist.from_cache: rebuild from the cached_playlist mirror alone,
constructing a Track per non-None entry and the two derived sequences.
The definition takes no network collaborator, and it returns the cache
unchanged: the method never writes to it. -/
def from_cache (c : Cache) : Except PyErr (PlaylistObj × Cache) := do
  let items ← pyIter c.cached_playlist
  let tracks ← buildTracks items
  let vectors ← vectorsOf tracks
  .ok (⟨tracks, vectors, tracks.map Track.get_name⟩, c)

/-- Claim C9: restoring via from_cache on a store whose cached playlist
is the empty list yields a Playlist with zero Track Records, empty
derived sequences, and returns the Snapshot Store unchanged (no write);
the definition of from_cache takes no network collaborator at all. -/
theorem C9_from_cache_empty (c : Cache)
    (h : c.cached_playlist = PyVal.list []) :
    from_cache c = Except.ok (⟨[], [], []⟩, c) := by
  unfold from_cache
  rw [h]
  rfl

/-- Witness for C9_from_cache_empty: a fresh cache has the empty cached
playlist, and from_cache on it yields the empty Playlist and the same
cache. -/
theorem C9_from_cache_empty_witness :
    from_cache (Cache.init Option.none) =
      Except.ok (⟨[], [], []⟩, Cache.init Option.none) :=
  C9_from_cache_empty (Cache.init Option.none) rfl

/-- Claim C6: when the playlist payload is the null payload or yields no
extractable references, the constructor still runs assembly and
persistence: it produces an empty Playlist and unconditionally
overwrites the cached playlist with the empty list (both the mirror and
the stored value), for every prior cache state. -/
theorem C6_empty_import_overwrites (ok : Bool) (payload : PyVal)
    (enrich : String → PyVal) (c : Cache)
    (h : get_track_refs payload = Except.ok []) :
    playlistInit ok payload enrich c =
      Except.ok (⟨[], [], []⟩,
        Cache.update_playlist ok c (PyVal.list [])) ∧
    (Cache.update_playlist ok c (PyVal.list [])).cached_playlist =
      PyVal.list [] ∧
    alistGet (Cache.update_playlist ok c (PyVal.list [])).data
      "cached playlist" = some (PyVal.list []) := by
  refine ⟨?_, ?_, ?_⟩
  · unfold playlistInit
    rw [h]
    rfl
  · simp [Cache.update_playlist, Cache.set, Cache.save_cached_playlist]
  · simp [Cache.update_playlist, Cache.set, Cache.save_data,
      alistGet_alistSet_self]

/-- Witness for C6_empty_import_overwrites: the null payload on a fresh
cache yields the empty Playlist and the empty persisted playlist. -/
theorem C6_empty_import_overwrites_witness :
    playlistInit true PyVal.none (fun _ => PyVal.none)
        (Cache.init Option.none) =
      Except.ok (⟨[], [], []⟩,
        Cache.update_playlist true (Cache.init Option.none)
          (PyVal.list [])) :=
  (C6_empty_import_overwrites true PyVal.none (fun _ => PyVal.none)
    (Cache.init Option.none) rfl).1

/-- Claim C1: the spec requires the end-to-end import with 2 valid href
items, one enrichment success and one "no data", to assemble a Playlist
of 1 Track Record with 1 name, 1 vector and 1 persisted attribute map.
The code cannot do this: Playlist.build_playlist calls track.get_data()
but Track defines get_track, so the import raises AttributeError as
soon as at least one Track is built, before anything is persisted.
This theorem evaluates the pipeline at exactly the failing input of the
spec sentence, for every cache state. -/
theorem C1_get_data_attribute_bug (ok : Bool) (c : Cache) :
    playlistInit ok
      (PyVal.dict [("tracks", PyVal.dict [("items", PyVal.list
        [PyVal.dict [("track", PyVal.dict [("href",
          PyVal.str "https://api.spotify.com/v1/tracks/t1")])],
         PyVal.dict [("track", PyVal.dict [("href",
          PyVal.str "https://api.spotify.com/v1/tracks/t2")])]])])])
      (fun tid => if tid = "t1"
        then PyVal.dict [("name", PyVal.str "Track 1")]
        else PyVal.none)
      c =
      Except.error PyErr.attributeError := by
  rfl
